import Mathlib

/-!
Verification of the FuelEU Maritime compliance tracker.

The backend domain logic lives in src/backend/server.ts
(ComplianceService.calculateCB, ComplianceService.bankSurplus, the
Postgres adapters) and the pooling aggregation lives in
src/frontend/src/App.tsx (handleCreatePool).  Numeric values are
modelled as rationals, database tables as lists of rows, and the
fallible service methods return Option / Except.
-/

/-- A vessel route record, as stored in the routes table and produced by
PostgresRouteAdapter.mapRowToRoute in src/backend/server.ts. -/
structure Route where
  id : Nat
  routeId : String
  vesselType : String
  fuelType : String
  year : Int
  ghgIntensity : ℚ
  fuelConsumption : ℚ
  distance : ℚ
  totalEmissions : ℚ
  isBaseline : Bool
deriving DecidableEq

/-- The kind of a ledger transaction, the TS union banked | applied. -/
inductive EntryKind where
  | banked
  | applied
deriving DecidableEq

/-- One row of the bank_entries table (interface BankEntry in
src/backend/server.ts).  The id and createdAt fields are assigned by the
database on insert, hence optional. -/
structure BankEntry where
  id : Option Nat
  routeId : String
  year : Int
  type : EntryKind
  amount : ℚ
  createdAt : Option Nat
deriving DecidableEq

/-- The computed compliance view (interface ComplianceResult). -/
structure ComplianceResult where
  cb : ℚ
  banked : ℚ
  adjustedCB : ℚ
deriving DecidableEq

/-- The module-level CONSTANTS object of src/backend/server.ts. -/
structure Constants where
  GHG_TARGET_2025 : ℚ
  LCV : ℚ

/-- CONSTANTS = { GHG_TARGET_2025: 89.3368, LCV: 41000 }. -/
def CONSTANTS : Constants :=
  { GHG_TARGET_2025 := 893368 / 10000, LCV := 41000 }

/-- PostgresRouteAdapter.findByRouteId: SELECT * FROM routes WHERE
route_id = $1, returning the first matching row or null.  The routes
table is modelled as a list of rows. -/
def RouteRepo.findByRouteId (routes : List Route) (id : String) : Option Route :=
  routes.find? (fun r => r.routeId == id)

/-- PostgresBankingAdapter.findByRouteId: SELECT * FROM bank_entries
WHERE route_id = $1.  No year condition appears in the query. -/
def BankingRepo.findByRouteId (ledger : List BankEntry) (id : String) : List BankEntry :=
  ledger.filter (fun e => e.routeId == id)

/-- The bank_entries table together with the serial sequence and the
clock that assign id and created_at on INSERT. -/
structure BankDB where
  ledger : List BankEntry
  nextId : Nat
  now : Nat
deriving DecidableEq

/-- PostgresBankingAdapter.save: INSERT INTO bank_entries ... RETURNING *.
The database assigns the serial id and the current timestamp; the
persisted row is returned along with the new table state. -/
def BankingRepo.save (db : BankDB) (entry : BankEntry) : BankEntry × BankDB :=
  let persisted : BankEntry :=
    { entry with id := some db.nextId, createdAt := some db.now }
  (persisted, { db with ledger := db.ledger ++ [persisted], nextId := db.nextId + 1 })

/-- The bankedSum reduce of calculateCB: entries with type banked are
kept and their amounts are accumulated from 0. -/
def bankedSumOf (bankEntries : List BankEntry) : ℚ :=
  (bankEntries.filter (fun e => e.type == EntryKind.banked)).foldl
    (fun sum e => sum + e.amount) 0

/-- The appliedSum reduce of calculateCB: entries with type applied are
kept and their amounts are accumulated from 0. -/
def appliedSumOf (bankEntries : List BankEntry) : ℚ :=
  (bankEntries.filter (fun e => e.type == EntryKind.applied)).foldl
    (fun sum e => sum + e.amount) 0

/-- ComplianceService.calculateCB from src/backend/server.ts.  Looks up
the route, computes cb = (GHG_TARGET_2025 - ghgIntensity) *
(fuelConsumption * LCV), sums the banked and the applied ledger amounts
for the route, and returns the ComplianceResult; none models the thrown
Route-not-found error.  The year argument is part of the signature as in
the source. -/
def calculateCB (routes : List Route) (ledger : List BankEntry)
    (routeId : String) (year : Int) : Option ComplianceResult :=
  match RouteRepo.findByRouteId routes routeId with
  | none => none
  | some route =>
    let energyInScope := route.fuelConsumption * CONSTANTS.LCV
    let cb := (CONSTANTS.GHG_TARGET_2025 - route.ghgIntensity) * energyInScope
    let bankEntries := BankingRepo.findByRouteId ledger routeId
    let netBanked := bankedSumOf bankEntries - appliedSumOf bankEntries
    some { cb := cb, banked := netBanked, adjustedCB := cb + netBanked }

/-- The error outcomes of ComplianceService.bankSurplus: the thrown
Route not found and Cannot bank negative compliance balance errors. -/
inductive BankError where
  | routeNotFound
  | negativeBalance
deriving DecidableEq

/-- ComplianceService.bankSurplus from src/backend/server.ts.
Recomputes the compliance balance, throws the negative-balance error
when cb <= 0 (leaving the table untouched), otherwise saves a banked
entry whose amount is the raw cb and returns the persisted row together
with the new table state. -/
def bankSurplus (routes : List Route) (db : BankDB)
    (routeId : String) (year : Int) : Except BankError BankEntry × BankDB :=
  match calculateCB routes db.ledger routeId year with
  | none => (Except.error BankError.routeNotFound, db)
  | some status =>
    if status.cb ≤ 0 then
      (Except.error BankError.negativeBalance, db)
    else
      let entry : BankEntry :=
        { id := none, routeId := routeId, year := year,
          type := EntryKind.banked, amount := status.cb, createdAt := none }
      let saved := BankingRepo.save db entry
      (Except.ok saved.1, saved.2)

/-- One row of the allocation table built by handleCreatePool. -/
structure AllocationRow where
  id : String
  before : ℚ
  after : ℚ
deriving DecidableEq

/-- The pool result object set by handleCreatePool:
setPoolResult with totalCB, results and valid. -/
structure PoolOutcome where
  totalCB : ℚ
  results : List AllocationRow
  valid : Bool
deriving DecidableEq

/-- handleCreatePool from src/frontend/src/App.tsx.  The selected routes
are paired with their compliance results (api.getCompliance per route),
their adjusted balances are summed, the members are sorted by descending
adjusted CB (Array.prototype.sort is stable, modelled by the stable
mergeSort), and each member is mapped to an allocation row; valid is
totalCB >= 0. -/
def handleCreatePool (routes : List Route) (poolSelection : List Nat)
    (getCompliance : String → ComplianceResult) : PoolOutcome :=
  let selectedRoutes := routes.filter (fun r => poolSelection.contains r.id)
  let members := selectedRoutes.map (fun r => (r, getCompliance r.routeId))
  let totalCB := members.foldl (fun acc cur => acc + cur.2.adjustedCB) (0 : ℚ)
  let sorted := members.mergeSort (fun a b => decide (b.2.adjustedCB ≤ a.2.adjustedCB))
  let results := sorted.map (fun m =>
    ({ id := m.1.routeId,
       before := m.2.adjustedCB,
       after := if totalCB ≥ 0 then (if (m.2.adjustedCB : ℚ) < 0 then (0 : ℚ) else m.2.adjustedCB)
                else m.2.adjustedCB } : AllocationRow))
  { totalCB := totalCB, results := results, valid := decide (totalCB ≥ 0) }

/-- The Verify and Create Pool button in src/frontend/src/App.tsx is
disabled when fewer than two routes are selected. -/
def createPoolButtonDisabled (poolSelection : List Nat) : Bool :=
  poolSelection.length < 2

/-- The seeded 2024 routes R001, R002 and R003 from the INSERT statement
in src/backend/server.ts. -/
def r001 : Route :=
  { id := 1, routeId := "R001", vesselType := "Container", fuelType := "HFO",
    year := 2024, ghgIntensity := 91, fuelConsumption := 5000,
    distance := 12000, totalEmissions := 4500, isBaseline := false }

/-- Seeded route R002: LNG bulk carrier, GHG intensity 88, below the
2025 target. -/
def r002 : Route :=
  { id := 2, routeId := "R002", vesselType := "BulkCarrier", fuelType := "LNG",
    year := 2024, ghgIntensity := 88, fuelConsumption := 4800,
    distance := 11500, totalEmissions := 4200, isBaseline := false }

/-- Seeded route R003: MGO tanker, GHG intensity 93.5, above the 2025
target. -/
def r003 : Route :=
  { id := 3, routeId := "R003", vesselType := "Tanker", fuelType := "MGO",
    year := 2024, ghgIntensity := 935 / 10, fuelConsumption := 5100,
    distance := 12500, totalEmissions := 4700, isBaseline := false }

/-- A concrete routes table holding the three seeded 2024 routes. -/
def demoRoutes : List Route := [r001, r002, r003]

/-- A concrete bank_entries table: a 2023 banked entry and a 2024
applied entry for R001, and a banked entry for R002. -/
def demoLedger : List BankEntry :=
  [{ id := some 1, routeId := "R001", year := 2023, type := EntryKind.banked,
     amount := 1000, createdAt := some 10 },
   { id := some 2, routeId := "R001", year := 2024, type := EntryKind.applied,
     amount := 250, createdAt := some 11 },
   { id := some 3, routeId := "R002", year := 2024, type := EntryKind.banked,
     amount := 7777, createdAt := some 12 }]

/-- The seeded route R001 with its year field replaced, everything else
unchanged. -/
def routeWithYear (y : Int) : Route := { r001 with year := y }

/-- A concrete database state wrapping the demo ledger, with serial
counter 4 and clock 100. -/
def demoDB : BankDB := { ledger := demoLedger, nextId := 4, now := 100 }

/-- A demo route P1 used for pooling scenarios. -/
def poolRoute1 : Route :=
  { id := 1, routeId := "P1", vesselType := "Container", fuelType := "HFO",
    year := 2025, ghgIntensity := 89, fuelConsumption := 5000,
    distance := 10000, totalEmissions := 4000, isBaseline := false }

/-- A demo route P2 used for pooling scenarios. -/
def poolRoute2 : Route :=
  { id := 2, routeId := "P2", vesselType := "Tanker", fuelType := "MGO",
    year := 2025, ghgIntensity := 92, fuelConsumption := 4000,
    distance := 9000, totalEmissions := 3800, isBaseline := false }

/-- The demo routes table for pooling scenarios. -/
def poolDemoRoutes : List Route := [poolRoute1, poolRoute2]

/-- A compliance lookup for the pooling demo: P1 has adjusted balance
+5000000 and every other route -2000000, the worked example of the
specification. -/
def poolDemoComp : String → ComplianceResult := fun s =>
  if s == "P1" then { cb := 5000000, banked := 0, adjustedCB := 5000000 }
  else { cb := -2000000, banked := 0, adjustedCB := -2000000 }

/-- Folding addition of amounts over a list equals the accumulator plus
the sum of the mapped amounts. -/
theorem foldl_add_amount (l : List BankEntry) (a : ℚ) :
    l.foldl (fun sum e => sum + e.amount) a = a + (l.map (fun e => e.amount)).sum := by
  induction l generalizing a with
  | nil => simp
  | cons e l ih => simp [List.foldl_cons, ih, List.sum_cons]; ring

/-- Folding addition of adjusted balances over the member list equals
the accumulator plus the sum of the mapped balances. -/
theorem foldl_add_adjusted (l : List (Route × ComplianceResult)) (a : ℚ) :
    l.foldl (fun acc cur => acc + cur.2.adjustedCB) a
      = a + (l.map (fun cur => cur.2.adjustedCB)).sum := by
  induction l generalizing a with
  | nil => simp
  | cons m l ih => simp [List.foldl_cons, ih, List.sum_cons]; ring

/-- C10: calculateCB never reads its year argument, so two calls that
differ only in the year return identical results. -/
theorem calculateCB_year_arg_irrelevant (routes : List Route) (ledger : List BankEntry)
    (routeId : String) (y1 y2 : Int) :
    calculateCB routes ledger routeId y1 = calculateCB routes ledger routeId y2 := rfl

/-- C1: for every route found by the repository, the raw compliance
balance equals (target minus GHG intensity) times the energy in scope,
where energy in scope is fuel consumption times the single global LCV
constant 41000. -/
theorem calculateCB_raw_cb_formula (routes : List Route) (ledger : List BankEntry)
    (routeId : String) (year : Int) (route : Route)
    (h : RouteRepo.findByRouteId routes routeId = some route) :
    CONSTANTS.LCV = 41000 ∧
    ∃ res, calculateCB routes ledger routeId year = some res ∧
      res.cb = (CONSTANTS.GHG_TARGET_2025 - route.ghgIntensity)
        * (route.fuelConsumption * 41000) := by
  refine ⟨rfl, ?_⟩
  unfold calculateCB
  rw [h]
  exact ⟨_, rfl, rfl⟩

theorem beq_banked_banked : (EntryKind.banked == EntryKind.banked) = true := rfl

theorem beq_banked_applied : (EntryKind.banked == EntryKind.applied) = false := rfl

theorem beq_applied_banked : (EntryKind.applied == EntryKind.banked) = false := rfl

theorem beq_applied_applied : (EntryKind.applied == EntryKind.applied) = true := rfl

theorem beq_R002_R001 : (("R002" : String) == "R001") = false := rfl

theorem beq_R001_R002 : (("R001" : String) == "R002") = false := rfl

theorem beq_R001_R003 : (("R001" : String) == "R003") = false := rfl

theorem beq_R002_R003 : (("R002" : String) == "R003") = false := rfl

/-- Concrete evaluation of calculateCB for route R001 over the demo
ledger: raw cb -340956000, net banked 750, adjusted -340955250. -/
theorem calculateCB_R001_eval :
    calculateCB demoRoutes demoLedger "R001" 2024
      = some { cb := -340956000, banked := 750, adjustedCB := -340955250 } := by
  norm_num [calculateCB, RouteRepo.findByRouteId, BankingRepo.findByRouteId,
    bankedSumOf, appliedSumOf, demoRoutes, demoLedger, r001, r002, r003, CONSTANTS,
    beq_banked_banked, beq_banked_applied, beq_applied_banked, beq_applied_applied,
    beq_R002_R001]

/-- Witness for C1: on the seeded table, route R002 is found and its raw
balance follows the target formula with the LCV constant 41000. -/
theorem calculateCB_raw_cb_formula_witness :
    CONSTANTS.LCV = 41000 ∧
    ∃ res, calculateCB demoRoutes demoLedger "R002" 2024 = some res ∧
      res.cb = (CONSTANTS.GHG_TARGET_2025 - r002.ghgIntensity)
        * (r002.fuelConsumption * 41000) :=
  calculateCB_raw_cb_formula demoRoutes demoLedger "R002" 2024 r002 (by decide)

/-- C2: every ComplianceResult returned by calculateCB satisfies
adjustedCB = cb + banked exactly. -/
theorem calculateCB_adjustedCB_eq (routes : List Route) (ledger : List BankEntry)
    (routeId : String) (year : Int) (res : ComplianceResult)
    (h : calculateCB routes ledger routeId year = some res) :
    res.adjustedCB = res.cb + res.banked := by
  unfold calculateCB at h
  cases hf : RouteRepo.findByRouteId routes routeId with
  | none => rw [hf] at h; cases h
  | some route =>
    rw [hf] at h
    simp only [Option.some.injEq] at h
    subst h
    rfl

/-- Witness for C2: the result computed for R001 over the demo ledger
satisfies the adjusted-balance identity. -/
theorem calculateCB_adjustedCB_eq_witness :
    (ComplianceResult.mk (-340956000) 750 (-340955250)).adjustedCB
      = (ComplianceResult.mk (-340956000) 750 (-340955250)).cb
        + (ComplianceResult.mk (-340956000) 750 (-340955250)).banked :=
  calculateCB_adjustedCB_eq demoRoutes demoLedger "R001" 2024 _ calculateCB_R001_eval

/-- C3: the banked field of every result equals the sum of banked
amounts minus the sum of applied amounts over exactly the ledger entries
whose route identifier matches, for every requested year and with
entries of all years contributing. -/
theorem calculateCB_netBanked_filter (routes : List Route) (ledger : List BankEntry)
    (routeId : String) (year : Int) (res : ComplianceResult)
    (h : calculateCB routes ledger routeId year = some res) :
    res.banked =
      ((ledger.filter (fun e => e.routeId == routeId && e.type == EntryKind.banked)).map
        (fun e => e.amount)).sum
      - ((ledger.filter (fun e => e.routeId == routeId && e.type == EntryKind.applied)).map
        (fun e => e.amount)).sum := by
  unfold calculateCB at h
  cases hf : RouteRepo.findByRouteId routes routeId with
  | none => rw [hf] at h; cases h
  | some route =>
    rw [hf] at h
    simp only [Option.some.injEq] at h
    subst h
    show bankedSumOf (BankingRepo.findByRouteId ledger routeId)
        - appliedSumOf (BankingRepo.findByRouteId ledger routeId) = _
    unfold bankedSumOf appliedSumOf BankingRepo.findByRouteId
    rw [foldl_add_amount, foldl_add_amount, List.filter_filter, List.filter_filter]
    have hb : (fun e : BankEntry => e.type == EntryKind.banked && e.routeId == routeId)
        = fun e : BankEntry => e.routeId == routeId && e.type == EntryKind.banked := by
      funext e
      exact Bool.and_comm _ _
    have ha : (fun e : BankEntry => e.type == EntryKind.applied && e.routeId == routeId)
        = fun e : BankEntry => e.routeId == routeId && e.type == EntryKind.applied := by
      funext e
      exact Bool.and_comm _ _
    rw [hb, ha]
    ring

/-- Witness for C3: the banked field computed for R001 over the demo
ledger equals 1000 minus 250, the R002 entry being excluded and the 2023
entry included. -/
theorem calculateCB_netBanked_filter_witness :
    (ComplianceResult.mk (-340956000) 750 (-340955250)).banked =
      ((demoLedger.filter (fun e => e.routeId == "R001" && e.type == EntryKind.banked)).map
        (fun e => e.amount)).sum
      - ((demoLedger.filter (fun e => e.routeId == "R001" && e.type == EntryKind.applied)).map
        (fun e => e.amount)).sum :=
  calculateCB_netBanked_filter demoRoutes demoLedger "R001" 2024 _ calculateCB_R001_eval

/-- Concrete evaluation of calculateCB for route R002 over the demo
ledger: raw cb 263082240, net banked 7777, adjusted 263090017. -/
theorem calculateCB_R002_eval :
    calculateCB demoRoutes demoLedger "R002" 2024
      = some { cb := 263082240, banked := 7777, adjustedCB := 263090017 } := by
  norm_num [calculateCB, RouteRepo.findByRouteId, BankingRepo.findByRouteId,
    bankedSumOf, appliedSumOf, demoRoutes, demoLedger, r001, r002, r003, CONSTANTS,
    beq_banked_banked, beq_banked_applied, beq_applied_banked, beq_applied_applied,
    beq_R002_R001, beq_R001_R002, beq_R001_R003, beq_R002_R003]

/-- Concrete evaluation of calculateCB for route R003 over the demo
ledger: raw cb -870525120, no ledger entries, adjusted -870525120. -/
theorem calculateCB_R003_eval :
    calculateCB demoRoutes demoLedger "R003" 2024
      = some { cb := -870525120, banked := 0, adjustedCB := -870525120 } := by
  norm_num [calculateCB, RouteRepo.findByRouteId, BankingRepo.findByRouteId,
    bankedSumOf, appliedSumOf, demoRoutes, demoLedger, r001, r002, r003, CONSTANTS,
    beq_banked_banked, beq_banked_applied, beq_applied_banked, beq_applied_applied,
    beq_R002_R001, beq_R001_R002, beq_R001_R003, beq_R002_R003]

/-- C4: with the route present, bankSurplus fails with the
negative-balance error exactly when the recomputed raw cb is at most 0,
the test being on the raw balance; on failure the database, and hence
the ledger, is unchanged. -/
theorem bankSurplus_rejects_nonpositive (routes : List Route) (db : BankDB)
    (routeId : String) (year : Int) (status : ComplianceResult)
    (h : calculateCB routes db.ledger routeId year = some status) :
    ((bankSurplus routes db routeId year).1 = Except.error BankError.negativeBalance
      ↔ status.cb ≤ 0)
    ∧ (status.cb ≤ 0 → (bankSurplus routes db routeId year).2 = db) := by
  unfold bankSurplus
  rw [h]
  by_cases hc : status.cb ≤ 0
  · simp [hc]
  · simp [hc]

/-- Witness for C4: banking route R003, whose raw balance -870525120 is
negative, fails with the negative-balance error and leaves the database
unchanged. -/
theorem bankSurplus_rejects_nonpositive_witness :
    ((bankSurplus demoRoutes demoDB "R003" 2024).1
        = Except.error BankError.negativeBalance
      ↔ ((-870525120 : ℚ) ≤ 0))
    ∧ (((-870525120 : ℚ) ≤ 0) → (bankSurplus demoRoutes demoDB "R003" 2024).2 = demoDB) :=
  bankSurplus_rejects_nonpositive demoRoutes demoDB "R003" 2024
    (ComplianceResult.mk (-870525120) 0 (-870525120)) calculateCB_R003_eval

/-- The banked sum distributes over ledger concatenation. -/
theorem bankedSumOf_append (l1 l2 : List BankEntry) :
    bankedSumOf (l1 ++ l2) = bankedSumOf l1 + bankedSumOf l2 := by
  unfold bankedSumOf
  rw [List.filter_append, foldl_add_amount, foldl_add_amount, foldl_add_amount,
    List.map_append, List.sum_append]
  ring

/-- The applied sum distributes over ledger concatenation. -/
theorem appliedSumOf_append (l1 l2 : List BankEntry) :
    appliedSumOf (l1 ++ l2) = appliedSumOf l1 + appliedSumOf l2 := by
  unfold appliedSumOf
  rw [List.filter_append, foldl_add_amount, foldl_add_amount, foldl_add_amount,
    List.map_append, List.sum_append]
  ring

/-- The banked sum of a single banked entry is its amount. -/
theorem bankedSumOf_banked_single (e : BankEntry) (h : e.type = EntryKind.banked) :
    bankedSumOf [e] = e.amount := by
  unfold bankedSumOf
  simp [List.filter_cons, h, beq_banked_banked, List.foldl_cons]

/-- The applied sum of a single banked entry is zero. -/
theorem appliedSumOf_banked_single (e : BankEntry) (h : e.type = EntryKind.banked) :
    appliedSumOf [e] = 0 := by
  unfold appliedSumOf
  simp [List.filter_cons, h, beq_banked_applied]

/-- The ledger query by route distributes over concatenation. -/
theorem findByRouteId_append (l1 l2 : List BankEntry) (id : String) :
    BankingRepo.findByRouteId (l1 ++ l2) id
      = BankingRepo.findByRouteId l1 id ++ BankingRepo.findByRouteId l2 id := by
  unfold BankingRepo.findByRouteId
  exact List.filter_append _ _

/-- A single entry whose route matches is kept by the ledger query. -/
theorem findByRouteId_single_match (e : BankEntry) (id : String) (h : e.routeId = id) :
    BankingRepo.findByRouteId [e] id = [e] := by
  unfold BankingRepo.findByRouteId
  simp [List.filter_cons, h]

/-- C5: when the recomputed raw balance is strictly positive, bankSurplus
appends exactly one banked entry whose amount is the raw cb for the
given route and year, returns the persisted row with its assigned id and
timestamp, and the recomputed net banked amount grows by exactly the raw
cb, strictly. -/
theorem bankSurplus_success_appends (routes : List Route) (db : BankDB)
    (routeId : String) (year : Int) (status : ComplianceResult)
    (h : calculateCB routes db.ledger routeId year = some status)
    (hpos : 0 < status.cb) :
    ∃ persisted : BankEntry,
      (bankSurplus routes db routeId year).1 = Except.ok persisted ∧
      (bankSurplus routes db routeId year).2.ledger = db.ledger ++ [persisted] ∧
      persisted.type = EntryKind.banked ∧
      persisted.amount = status.cb ∧
      persisted.routeId = routeId ∧
      persisted.year = year ∧
      persisted.id = some db.nextId ∧
      persisted.createdAt = some db.now ∧
      calculateCB routes (bankSurplus routes db routeId year).2.ledger routeId year
        = some { cb := status.cb, banked := status.banked + status.cb,
                 adjustedCB := status.cb + (status.banked + status.cb) } ∧
      status.banked < status.banked + status.cb := by
  have hnle : ¬ status.cb ≤ 0 := not_le.mpr hpos
  have hb1 : bankSurplus routes db routeId year
      = (Except.ok { id := some db.nextId, routeId := routeId, year := year,
                     type := EntryKind.banked, amount := status.cb,
                     createdAt := some db.now },
         { db with
             ledger := db.ledger ++
               [{ id := some db.nextId, routeId := routeId, year := year,
                  type := EntryKind.banked, amount := status.cb,
                  createdAt := some db.now }],
             nextId := db.nextId + 1 }) := by
    unfold bankSurplus
    rw [h]
    dsimp only
    rw [if_neg hnle]
    rfl
  refine ⟨{ id := some db.nextId, routeId := routeId, year := year,
            type := EntryKind.banked, amount := status.cb,
            createdAt := some db.now },
    by rw [hb1], by rw [hb1], rfl, rfl, rfl, rfl, rfl, rfl, ?_, ?_⟩
  · rw [hb1]
    cases hf : RouteRepo.findByRouteId routes routeId with
    | none =>
      unfold calculateCB at h
      rw [hf] at h
      cases h
    | some route =>
      unfold calculateCB at h
      rw [hf] at h
      simp only [Option.some.injEq] at h
      have hcb : status.cb
          = (CONSTANTS.GHG_TARGET_2025 - route.ghgIntensity)
            * (route.fuelConsumption * CONSTANTS.LCV) := by
        rw [← h]
      have hnb : status.banked
          = bankedSumOf (BankingRepo.findByRouteId db.ledger routeId)
            - appliedSumOf (BankingRepo.findByRouteId db.ledger routeId) := by
        rw [← h]
      unfold calculateCB
      rw [hf]
      simp only [Option.some.injEq, ComplianceResult.mk.injEq]
      rw [findByRouteId_append, findByRouteId_single_match _ _ rfl,
        bankedSumOf_append, appliedSumOf_append,
        bankedSumOf_banked_single _ rfl, appliedSumOf_banked_single _ rfl]
      refine ⟨hcb.symm, ?_, ?_⟩ <;>
        · rw [hnb, hcb]
          ring
  · exact lt_add_of_pos_right _ hpos

/-- Witness for C5: banking route R002, whose raw balance 263082240 is
positive, appends the persisted entry with id 4 and timestamp 100 and
raises the net banked amount from 7777 by exactly 263082240. -/
theorem bankSurplus_success_appends_witness :
    ∃ persisted : BankEntry,
      (bankSurplus demoRoutes demoDB "R002" 2024).1 = Except.ok persisted ∧
      (bankSurplus demoRoutes demoDB "R002" 2024).2.ledger
        = demoDB.ledger ++ [persisted] ∧
      persisted.type = EntryKind.banked ∧
      persisted.amount = 263082240 ∧
      persisted.routeId = "R002" ∧
      persisted.year = 2024 ∧
      persisted.id = some demoDB.nextId ∧
      persisted.createdAt = some demoDB.now ∧
      calculateCB demoRoutes (bankSurplus demoRoutes demoDB "R002" 2024).2.ledger
          "R002" 2024
        = some { cb := 263082240, banked := (7777 : ℚ) + 263082240,
                 adjustedCB := (263082240 : ℚ) + (7777 + 263082240) } ∧
      (7777 : ℚ) < 7777 + 263082240 :=
  bankSurplus_success_appends demoRoutes demoDB "R002" 2024
    (ComplianceResult.mk 263082240 7777 263090017) calculateCB_R002_eval (by norm_num)

/-- C6: the reported pool total is the sum of the selected members
adjusted balances and the pool is reported valid exactly when that sum
is non-negative. -/
theorem handleCreatePool_total_and_valid (routes : List Route)
    (poolSelection : List Nat) (getCompliance : String → ComplianceResult) :
    (handleCreatePool routes poolSelection getCompliance).totalCB
      = ((routes.filter (fun r => poolSelection.contains r.id)).map
          (fun r => (getCompliance r.routeId).adjustedCB)).sum
    ∧ ((handleCreatePool routes poolSelection getCompliance).valid = true
        ↔ 0 ≤ ((routes.filter (fun r => poolSelection.contains r.id)).map
            (fun r => (getCompliance r.routeId).adjustedCB)).sum) := by
  unfold handleCreatePool
  dsimp only
  rw [foldl_add_adjusted, List.map_map]
  constructor
  · simp [Function.comp_def]
  · rw [decide_eq_true_eq]
    simp [Function.comp_def, ge_iff_le]

/-- The route names P1 and P2 of the pooling demo differ. -/
theorem eq_P2_P1_false : (("P2" : String) = "P1") = False := eq_false (by decide)

/-- C7: the allocation table lists the members sorted by descending
adjusted balance, each row carrying the pre-pool adjusted balance as
before; in a valid pool a negative member is zeroed and a non-negative
member keeps its balance, and in an invalid pool every member keeps its
balance. -/
theorem handleCreatePool_allocation (routes : List Route)
    (poolSelection : List Nat) (getCompliance : String → ComplianceResult) :
    ((handleCreatePool routes poolSelection getCompliance).results.map
        (fun row => (row.id, row.before))).Perm
      (((routes.filter (fun r => poolSelection.contains r.id)).map
          (fun r => (r, getCompliance r.routeId))).map
        (fun m => (m.1.routeId, m.2.adjustedCB)))
    ∧ List.Sorted (fun x y => y.before ≤ x.before)
        (handleCreatePool routes poolSelection getCompliance).results
    ∧ ∀ row ∈ (handleCreatePool routes poolSelection getCompliance).results,
        ((handleCreatePool routes poolSelection getCompliance).valid = true →
          (row.before < 0 → row.after = 0) ∧ (0 ≤ row.before → row.after = row.before))
        ∧ ((handleCreatePool routes poolSelection getCompliance).valid = false →
          row.after = row.before) := by
  unfold handleCreatePool
  dsimp only
  refine ⟨?_, ?_, ?_⟩
  · rw [List.map_map]
    exact (List.mergeSort_perm _ _).map _
  · have hs := @List.sorted_mergeSort (Route × ComplianceResult)
        (fun a b => decide (b.2.adjustedCB ≤ a.2.adjustedCB))
        (fun a b c hab hbc =>
          decide_eq_true (le_trans (of_decide_eq_true hbc) (of_decide_eq_true hab)))
        (fun a b => by
          simp only [Bool.or_eq_true, decide_eq_true_eq]
          exact le_total _ _)
        ((routes.filter (fun r => poolSelection.contains r.id)).map
          (fun r => (r, getCompliance r.routeId)))
    exact List.Pairwise.map _ (fun a b hab => of_decide_eq_true hab) hs
  · intro row hrow
    rcases List.mem_map.1 hrow with ⟨m, hm, rfl⟩
    constructor
    · intro hv
      rw [decide_eq_true_eq] at hv
      constructor
      · intro hneg
        dsimp only at hneg ⊢
        rw [if_pos hv, if_pos hneg]
      · intro hpos
        dsimp only at hpos ⊢
        rw [if_pos hv, if_neg (not_lt.mpr hpos)]
    · intro hv
      rw [decide_eq_false_iff_not] at hv
      dsimp only
      rw [if_neg hv]

/-- Witness for C7: pooling P1 (+5000000) with P2 (-2000000) is a valid
pool and the deficit member P2 is zeroed out in the allocation. -/
theorem handleCreatePool_allocation_witness :
    ∃ row ∈ (handleCreatePool poolDemoRoutes [1, 2] poolDemoComp).results,
      row.before = -2000000 ∧ row.after = 0 := by
  obtain ⟨hperm, hsort, hafter⟩ :=
    handleCreatePool_allocation poolDemoRoutes [1, 2] poolDemoComp
  have hmem : ("P2", (-2000000 : ℚ)) ∈
      (handleCreatePool poolDemoRoutes [1, 2] poolDemoComp).results.map
        (fun row => (row.id, row.before)) := by
    rw [hperm.mem_iff]
    norm_num [poolDemoRoutes, poolRoute1, poolRoute2, poolDemoComp, eq_P2_P1_false]
  rcases List.mem_map.1 hmem with ⟨row, hrow, hpair⟩
  have hbefore : row.before = -2000000 := congrArg Prod.snd hpair
  have hvalid : (handleCreatePool poolDemoRoutes [1, 2] poolDemoComp).valid = true := by
    unfold handleCreatePool
    dsimp only
    exact decide_eq_true (by
      norm_num [poolDemoRoutes, poolRoute1, poolRoute2, poolDemoComp, eq_P2_P1_false])
  exact ⟨row, hrow, hbefore,
    ((hafter row hrow).1 hvalid).1 (by rw [hbefore]; norm_num)⟩

/-- Counterexample for C9: invoking the pool computation with a single
selected route does not fail; it returns an ordinary outcome with one
allocation row (no insufficient-members error exists in the code, only
the button guard). -/
theorem createPool_single_member_outcome :
    (handleCreatePool poolDemoRoutes [1] poolDemoComp).results.length = 1 ∧
    (handleCreatePool poolDemoRoutes [1] poolDemoComp).valid = true := by
  constructor
  · unfold handleCreatePool
    dsimp only
    rw [List.length_map, (List.mergeSort_perm _ _).length_eq, List.length_map]
    norm_num [poolDemoRoutes, poolRoute1, poolRoute2]
  · unfold handleCreatePool
    dsimp only
    exact decide_eq_true (by
      norm_num [poolDemoRoutes, poolRoute1, poolRoute2, poolDemoComp])

/-- C9 as amended: the user interface disables the create-pool button
whenever fewer than two routes are selected, while handleCreatePool
itself never fails and always yields one allocation row per selected
member. -/
theorem createPool_guard_and_totality :
    (∀ poolSelection : List Nat, poolSelection.length < 2 →
        createPoolButtonDisabled poolSelection = true) ∧
    (∀ (routes : List Route) (poolSelection : List Nat)
        (getCompliance : String → ComplianceResult),
        (handleCreatePool routes poolSelection getCompliance).results.length
          = (routes.filter (fun r => poolSelection.contains r.id)).length) := by
  constructor
  · intro sel h
    exact decide_eq_true h
  · intro routes sel f
    unfold handleCreatePool
    dsimp only
    rw [List.length_map, (List.mergeSort_perm _ _).length_eq, List.length_map]

/-- Witness for C9: the empty selection disables the button and yields
an empty allocation table. -/
theorem createPool_guard_and_totality_witness :
    createPoolButtonDisabled [] = true ∧
    (handleCreatePool poolDemoRoutes [] poolDemoComp).results.length
      = (poolDemoRoutes.filter (fun r => List.contains [] r.id)).length :=
  ⟨createPool_guard_and_totality.1 [] (by norm_num),
   createPool_guard_and_totality.2 poolDemoRoutes [] poolDemoComp⟩

/-- Counterexample for C8: the 2025 target constant 89.3368 is applied
to the 2024 route R001 (raw cb (89.3368 - 91) * 5000 * 41000 =
-340956000), and the result is identical when the route and request year
are moved to 2030: one hard-coded target is used for every year. -/
theorem target_hardcoded_counterexample :
    calculateCB [routeWithYear 2024] [] "R001" 2024
      = some { cb := -340956000, banked := 0, adjustedCB := -340956000 } ∧
    CONSTANTS.GHG_TARGET_2025 = 893368 / 10000 ∧
    calculateCB [routeWithYear 2024] [] "R001" 2024
      = calculateCB [routeWithYear 2030] [] "R001" 2030 := by
  refine ⟨?_, rfl, rfl⟩
  norm_num [calculateCB, RouteRepo.findByRouteId, BankingRepo.findByRouteId,
    bankedSumOf, appliedSumOf, routeWithYear, r001, CONSTANTS]

/-- C8 as amended: calculateCB applies the single constant
GHG_TARGET_2025 = 89.3368 to every route, ignoring the year field of the
route entirely: replacing the year of a route changes nothing in the
result. -/
theorem calculateCB_target_ignores_route_year (route : Route) (y yearArg : Int)
    (ledger : List BankEntry) :
    CONSTANTS.GHG_TARGET_2025 = 893368 / 10000 ∧
    calculateCB [{ route with year := y }] ledger route.routeId yearArg
      = calculateCB [route] ledger route.routeId yearArg := by
  refine ⟨rfl, ?_⟩
  unfold calculateCB RouteRepo.findByRouteId
  rw [List.find?_cons_of_pos _ (by simp), List.find?_cons_of_pos _ (by simp)]
